import Mathlib

/-!
Shallow embedding of the FAT engine of `sbin/fsck_msdosfs/fat.c` (a FAT12/16/32
consistency checker).  Byte buffers are functions `Nat → Nat` read modulo 256
(`uint8_t` storage); `cl_t` (`uint32_t`) values are `Nat`s below `2^32`; the
interactive oracle `ask` and the I/O layer are parameters.  Bitmaps are
functions `Nat → Bool` (their set/clear operations are only ever invoked under
the guards the C code places around them, so the asserted preconditions of
`bitmap_set`/`bitmap_clear` hold at every call site).
-/

/-- Reserved cluster sentinels and width masks.  Modelled from the spec, §3 and
§6 (the header defining them is not under `src/`): FREE = 0, FIRST = 2, the
reserved band runs up to RSRVD, BAD is the single defect sentinel, EOFS..EOF is
the end-of-file range, DEAD is the error sentinel of the generic accessor; the
widths 12/16/32 are identified by their masks.  All are `uint32_t` values. -/
def CLUST_FREE : Nat := 0

def CLUST_FIRST : Nat := 2

def CLUST_RSRVD : Nat := 0xfffffff6

def CLUST_BAD : Nat := 0xfffffff7

def CLUST_EOFS : Nat := 0xfffffff8

def CLUST_EOF : Nat := 0xffffffff

def CLUST_DEAD : Nat := 0xfdeadc0d

def CLUST12_MASK : Nat := 0xfff

def CLUST16_MASK : Nat := 0xffff

def CLUST32_MASK : Nat := 0xfffffff

/-- Return status flags.  Modelled from the spec, §6: OK = 0 and the other
four are distinct single bits, combined by bitwise OR. -/
def FSOK : Nat := 0

def FSFATMOD : Nat := 1

def FSDIRTY : Nat := 2

def FSERROR : Nat := 4

def FSFATAL : Nat := 8

/-- A byte buffer: the in-memory FAT (`fat->fatbuf`) or one FAT sector. -/
def FatBuf : Type := Nat → Nat

/-- Read one `uint8_t` of the buffer. -/
def byteAt (buf : FatBuf) (i : Nat) : Nat := buf i % 256

/-- Modelled from the spec: `le16dec` of `sys/endian.h` (not under `src/`), a
little-endian 16-bit load. -/
def le16dec (buf : FatBuf) (p : Nat) : Nat :=
  byteAt buf p + byteAt buf (p + 1) * 256

/-- Modelled from the spec: `le16enc` of `sys/endian.h` (not under `src/`), a
little-endian 16-bit store. -/
def le16enc (buf : FatBuf) (p v : Nat) : FatBuf :=
  Function.update (Function.update buf p (v % 256)) (p + 1) (v / 256 % 256)

/-- Modelled from the spec: `le32dec` of `sys/endian.h` (not under `src/`), a
little-endian 32-bit load. -/
def le32dec (buf : FatBuf) (p : Nat) : Nat :=
  byteAt buf p + byteAt buf (p + 1) * 256 + byteAt buf (p + 2) * 65536 +
    byteAt buf (p + 3) * 16777216

/-- Modelled from the spec: `le32enc` of `sys/endian.h` (not under `src/`), a
little-endian 32-bit store. -/
def le32enc (buf : FatBuf) (p v : Nat) : FatBuf :=
  Function.update (Function.update (Function.update (Function.update buf
    p (v % 256)) (p + 1) (v / 256 % 256)) (p + 2) (v / 65536 % 256))
    (p + 3) (v / 16777216 % 256)

/-- `fat_get_fat12_ptr` (fat.c:234-238): byte offset `cl + (cl >> 1)` of the
16-bit slot holding FAT12 entry `cl` (the descriptor is elided: the C function
only adds the offset to `fat->fatbuf`). -/
def fat_get_fat12_ptr (cl : Nat) : Nat := cl + cl / 2

/-- The value of `retval` in `fat_get_fat12_next` after the masking step
(fat.c:246-251): the little-endian 16-bit word at the FAT12 offset, shifted
right 4 for odd clusters, masked to 12 bits. -/
def fat12_raw (buf : FatBuf) (cl : Nat) : Nat :=
  (if cl &&& 1 = 1 then le16dec buf (fat_get_fat12_ptr cl) >>> 4
   else le16dec buf (fat_get_fat12_ptr cl)) &&& CLUST12_MASK

/-- `fat_get_fat12_next` (fat.c:240-257): the masked word, sign-extended with
`~CLUST12_MASK` (`0xfffff000` as a `uint32_t`) when it reaches
`CLUST_BAD & CLUST12_MASK`. -/
def fat_get_fat12_next (buf : FatBuf) (cl : Nat) : Nat :=
  if CLUST_BAD &&& CLUST12_MASK ≤ fat12_raw buf cl then
    fat12_raw buf cl ||| 0xfffff000
  else fat12_raw buf cl

/-- `fat_set_fat12_next` (fat.c:259-284); the returned buffer is the updated
`fat->fatbuf` (the C function also returns the constant 0, materialised by the
generic accessor below).  Even clusters keep the high nibble of the second
byte, odd clusters the low nibble of the first; the final `% 65536` is the
`(uint16_t)` cast. -/
def fat_set_fat12_next (buf : FatBuf) (cl nextcl : Nat) : FatBuf :=
  le16enc buf (fat_get_fat12_ptr cl)
    ((if cl &&& 1 = 0 then
        (nextcl &&& CLUST12_MASK) |||
          ((byteAt buf (fat_get_fat12_ptr cl + 1) &&& 0xf0) <<< 8)
      else
        ((nextcl &&& CLUST12_MASK) <<< 4) |||
          (byteAt buf (fat_get_fat12_ptr cl) &&& 0x0f)) % 65536)

/-- `fat_get_fat16_ptr` (fat.c:291-295): byte offset `cl << 1`. -/
def fat_get_fat16_ptr (cl : Nat) : Nat := cl <<< 1

/-- The value of `retval` in `fat_get_fat16_next` after masking (fat.c:304). -/
def fat16_raw (buf : FatBuf) (cl : Nat) : Nat :=
  le16dec buf (fat_get_fat16_ptr cl) &&& CLUST16_MASK

/-- `fat_get_fat16_next` (fat.c:297-310).  `0xffff0000` is `~CLUST16_MASK`. -/
def fat_get_fat16_next (buf : FatBuf) (cl : Nat) : Nat :=
  if CLUST_BAD &&& CLUST16_MASK ≤ fat16_raw buf cl then
    fat16_raw buf cl ||| 0xffff0000
  else fat16_raw buf cl

/-- `fat_set_fat16_next` (fat.c:312-325); `% 65536` is the `(uint16_t)` cast. -/
def fat_set_fat16_next (buf : FatBuf) (cl nextcl : Nat) : FatBuf :=
  le16enc buf (fat_get_fat16_ptr cl) ((nextcl &&& CLUST16_MASK) % 65536)

/-- `fat_get_fat32_ptr` (fat.c:332-336): byte offset `cl << 2`. -/
def fat_get_fat32_ptr (cl : Nat) : Nat := cl <<< 2

/-- The value of `retval` in `fat_get_fat32_next` after masking (fat.c:345). -/
def fat32_raw (buf : FatBuf) (cl : Nat) : Nat :=
  le32dec buf (fat_get_fat32_ptr cl) &&& CLUST32_MASK

/-- `fat_get_fat32_next` (fat.c:338-351).  `0xf0000000` is `~CLUST32_MASK`. -/
def fat_get_fat32_next (buf : FatBuf) (cl : Nat) : Nat :=
  if CLUST_BAD &&& CLUST32_MASK ≤ fat32_raw buf cl then
    fat32_raw buf cl ||| 0xf0000000
  else fat32_raw buf cl

/-- `fat_set_fat32_next` (fat.c:353-366); `% 4294967296` is the `(uint32_t)`
cast. -/
def fat_set_fat32_next (buf : FatBuf) (cl nextcl : Nat) : FatBuf :=
  le32enc buf (fat_get_fat32_ptr cl) ((nextcl &&& CLUST32_MASK) % 4294967296)

/-- The fields of `struct bootblock` the FAT engine reads or writes (the whole
struct lives in a header that is not under `src/`; the field list is taken from
the uses in fat.c and the spec's boot-block contract, §3). -/
structure bootblock where
  ClustMask : Nat
  NumClusters : Nat
  NumFree : Nat
  NumBad : Nat
  bpbMedia : Nat
  bpbResSectors : Nat
  bpbBytesPerSec : Nat
  FATsecs : Nat
  bpbFATs : Nat

/-- `struct fat_descriptor` (fat.c:175-185).  The `get`/`set` function pointers
are realised by the dispatch in `fat_get_cl_next`/`fat_set_cl_next`; `fd` is
elided (I/O is parameterised). -/
structure fat_descriptor where
  boot : bootblock
  fatbuf : FatBuf
  usedbitmap : Nat → Bool
  headbitmap : Nat → Bool
  is_mmapped : Bool
  fatsize : Nat

/-- `fat_set_cl_used` (fat.c:187-191). -/
def fat_set_cl_used (fat : fat_descriptor) (cl : Nat) : fat_descriptor :=
  { fat with usedbitmap := Function.update fat.usedbitmap cl true }

/-- `fat_clear_cl_used` (fat.c:193-197). -/
def fat_clear_cl_used (fat : fat_descriptor) (cl : Nat) : fat_descriptor :=
  { fat with usedbitmap := Function.update fat.usedbitmap cl false }

/-- `fat_is_cl_used` (fat.c:199-203). -/
def fat_is_cl_used (fat : fat_descriptor) (cl : Nat) : Bool := fat.usedbitmap cl

/-- `fat_clear_cl_head` (fat.c:205-209). -/
def fat_clear_cl_head (fat : fat_descriptor) (cl : Nat) : fat_descriptor :=
  { fat with headbitmap := Function.update fat.headbitmap cl false }

/-- `fat_is_cl_head` (fat.c:211-215). -/
def fat_is_cl_head (fat : fat_descriptor) (cl : Nat) : Bool := fat.headbitmap cl

/-- `fat_is_cl_valid` (fat.c:443-449): `cl` lies in `[CLUST_FIRST,
NumClusters)`. -/
def fat_is_cl_valid (fat : fat_descriptor) (cl : Nat) : Bool :=
  decide (CLUST_FIRST ≤ cl) && decide (cl < fat.boot.NumClusters)

/-- `fat_get_cl_next` (fat.c:371-395): bounds check, then dispatch on
`ClustMask`; out-of-bounds `cl` and an unknown mask yield `CLUST_DEAD`. -/
def fat_get_cl_next (fat : fat_descriptor) (cl : Nat) : Nat :=
  if cl < CLUST_FIRST ∨ fat.boot.NumClusters ≤ cl then CLUST_DEAD
  else if fat.boot.ClustMask = CLUST12_MASK then fat_get_fat12_next fat.fatbuf cl
  else if fat.boot.ClustMask = CLUST16_MASK then fat_get_fat16_next fat.fatbuf cl
  else if fat.boot.ClustMask = CLUST32_MASK then fat_get_fat32_next fat.fatbuf cl
  else CLUST_DEAD

/-- `fat_set_cl_next` (fat.c:397-426): refuse under `rdonly`, bounds check,
then dispatch on `ClustMask`.  Returns the status and the resulting buffer
(unchanged on every refusing path). -/
def fat_set_cl_next (rdonly : Bool) (fat : fat_descriptor) (cl nextcl : Nat) :
    Nat × FatBuf :=
  if rdonly then (FSFATAL, fat.fatbuf)
  else if cl < CLUST_FIRST ∨ fat.boot.NumClusters ≤ cl then (FSFATAL, fat.fatbuf)
  else if fat.boot.ClustMask = CLUST12_MASK then
    (0, fat_set_fat12_next fat.fatbuf cl nextcl)
  else if fat.boot.ClustMask = CLUST16_MASK then
    (0, fat_set_fat16_next fat.fatbuf cl nextcl)
  else if fat.boot.ClustMask = CLUST32_MASK then
    (0, fat_set_fat32_next fat.fatbuf cl nextcl)
  else (FSFATAL, fat.fatbuf)

/-- `checkdirty` (fat.c:469-530), applied to the first FAT sector already in
memory (the C function's `malloc`/`lseek`/`read` failures all take the `err`
path and also return 0, so they coincide with a rejected buffer). -/
def checkdirty (boot : bootblock) (buf : FatBuf) : Nat :=
  if boot.ClustMask ≠ CLUST16_MASK ∧ boot.ClustMask ≠ CLUST32_MASK then 0
  else if byteAt buf 0 ≠ boot.bpbMedia ∨ byteAt buf 1 ≠ 0xff then 0
  else if boot.ClustMask = CLUST16_MASK then
    if byteAt buf 2 &&& 0xf8 ≠ 0xf8 ∨ byteAt buf 3 &&& 0x3f ≠ 0x3f then 0
    else if byteAt buf 3 &&& 0xc0 = 0xc0 then 1 else 0
  else
    if byteAt buf 2 ≠ 0xff ∨ byteAt buf 3 &&& 0x0f ≠ 0x0f ∨
        byteAt buf 4 &&& 0xf8 ≠ 0xf8 ∨ byteAt buf 5 ≠ 0xff ∨
        byteAt buf 6 ≠ 0xff ∨ byteAt buf 7 &&& 0x03 ≠ 0x03 then 0
    else if byteAt buf 7 &&& 0x0c = 0x0c then 1 else 0

/-- The signature bytes `readfat` accepts silently as clean (fat.c:641-647,
negation of the warning condition). -/
def loader_sig_clean (ClustMask media : Nat) (buf : FatBuf) : Bool :=
  (byteAt buf 0 == media) && (byteAt buf 1 == 0xff) && (byteAt buf 2 == 0xff) &&
  (!(ClustMask == CLUST16_MASK) || byteAt buf 3 == 0xff) &&
  (!(ClustMask == CLUST32_MASK) ||
    ((byteAt buf 3 &&& 0x0f == 0x0f) && (byteAt buf 4 == 0xff) &&
     (byteAt buf 5 == 0xff) && (byteAt buf 6 == 0xff) &&
     (byteAt buf 7 &&& 0x0f == 0x0f)))

/-- The Windows-OSR2 dirty signature `readfat` accepts with `FSDIRTY`
(fat.c:655-661). -/
def loader_sig_dirty (ClustMask media : Nat) (buf : FatBuf) : Bool :=
  (byteAt buf 0 == media) && (byteAt buf 1 == 0xff) && (byteAt buf 2 == 0xff) &&
  (((ClustMask == CLUST16_MASK) && (byteAt buf 3 == 0x7f)) ||
   ((ClustMask == CLUST32_MASK) && (byteAt buf 3 == 0x0f) &&
    (byteAt buf 4 == 0xff) && (byteAt buf 5 == 0xff) &&
    (byteAt buf 6 == 0xff) && (byteAt buf 7 == 0x07)))

/-- The masked signature validation `checkdirty` actually performs
(fat.c:504-514), as a predicate for stating what `checkdirty` returns. -/
def checkdirty_sig (ClustMask media : Nat) (buf : FatBuf) : Bool :=
  (byteAt buf 0 == media) && (byteAt buf 1 == 0xff) &&
  (if ClustMask == CLUST16_MASK then
    (byteAt buf 2 &&& 0xf8 == 0xf8) && (byteAt buf 3 &&& 0x3f == 0x3f)
  else
    (byteAt buf 2 == 0xff) && (byteAt buf 3 &&& 0x0f == 0x0f) &&
    (byteAt buf 4 &&& 0xf8 == 0xf8) && (byteAt buf 5 == 0xff) &&
    (byteAt buf 6 == 0xff) && (byteAt buf 7 &&& 0x03 == 0x03))

/-- One iteration of the `readfat` scan loop (fat.c:713-750) at cluster `cl`:
classify the decoded successor and update free/bad counters, the head bitmap,
or (on an accepted "Truncate") the FAT entry itself.  `ask` is the oracle's
answer for this cluster's "Truncate" question; `bump_NumFree`/`bump_NumBad`
are `boot->NumFree++` and `boot->NumBad++`. -/
def bump_NumFree (fat : fat_descriptor) : fat_descriptor :=
  { fat with boot := { fat.boot with NumFree := fat.boot.NumFree + 1 } }

def bump_NumBad (fat : fat_descriptor) : fat_descriptor :=
  { fat with boot := { fat.boot with NumBad := fat.boot.NumBad + 1 } }

def readfat_scan_step (ask rdonly : Bool) (fat : fat_descriptor) (cl : Nat) :
    Nat × fat_descriptor :=
  if fat_get_cl_next fat cl = CLUST_FREE then
    (FSOK, bump_NumFree
      (if fat_is_cl_head fat cl then fat_clear_cl_head fat cl else fat))
  else if fat_get_cl_next fat cl = CLUST_BAD then
    (FSOK, bump_NumBad
      (if fat_is_cl_head fat cl then fat_clear_cl_head fat cl else fat))
  else if fat_get_cl_next fat cl < CLUST_FIRST ∨
      (fat.boot.NumClusters ≤ fat_get_cl_next fat cl ∧
       fat_get_cl_next fat cl < CLUST_EOFS) then
    if ask then
      (FSFATMOD,
        { fat with fatbuf := (fat_set_cl_next rdonly fat cl CLUST_EOF).2 })
    else (FSOK, fat)
  else if fat_get_cl_next fat cl < fat.boot.NumClusters then
    (FSOK, if fat_is_cl_head fat (fat_get_cl_next fat cl) then
      fat_clear_cl_head fat (fat_get_cl_next fat cl) else fat)
  else (FSOK, fat)

/-- The `readfat` scan loop over `cl ∈ [CLUST_FIRST, NumClusters)`, iterated
by the number of remaining clusters; `ret` accumulates status flags by OR. -/
def readfat_scanLoop (ask : Nat → Bool) (rdonly : Bool) :
    Nat → Nat → Nat → fat_descriptor → Nat × fat_descriptor
  | 0, _, ret, fat => (ret, fat)
  | count + 1, cl, ret, fat =>
    readfat_scanLoop ask rdonly count (cl + 1)
      (ret ||| (readfat_scan_step (ask cl) rdonly fat cl).1)
      (readfat_scan_step (ask cl) rdonly fat cl).2

/-- The Scanner: `boot->NumFree = boot->NumBad = 0` (fat.c:607) followed by the
scan loop of `readfat` (fat.c:713-750).  The I/O, allocation and signature
phases of `readfat` are elided: they do not touch the cluster range
`[CLUST_FIRST, NumClusters)` of the buffer nor the counters. -/
def readfat_scan (ask : Nat → Bool) (rdonly : Bool) (fat : fat_descriptor) :
    Nat × fat_descriptor :=
  readfat_scanLoop ask rdonly (fat.boot.NumClusters - CLUST_FIRST) CLUST_FIRST
    FSOK { fat with boot := { fat.boot with NumFree := 0, NumBad := 0 } }

/-- `truncate_at` (fat.c:779-789): on an accepted "Truncate" set the current
cluster's entry to `CLUST_EOF` (the status of that write is discarded, exactly
as in the C), bump the chain size and report `FSFATMOD`; otherwise `FSERROR`. -/
def truncate_at (ask rdonly : Bool) (fat : fat_descriptor)
    (current_cl chainsize : Nat) : Nat × Nat × fat_descriptor :=
  if ask then
    (FSFATMOD, chainsize + 1,
      { fat with fatbuf := (fat_set_cl_next rdonly fat current_cl CLUST_EOF).2 })
  else (FSERROR, chainsize, fat)

/-- The `checkchain` walk loop (fat.c:833-858), with explicit fuel (the C loop
terminates because every iteration marks a fresh cluster used; `checkchain`
below supplies `NumClusters` fuel, which by that argument is never exhausted,
and exhaustion would return `FSFATAL`, a value the loop never produces). -/
def checkchainLoop (ask rdonly : Bool) :
    Nat → fat_descriptor → Nat → Nat → Nat → Nat × Nat × fat_descriptor
  | 0, fat, _, _, chainsize => (FSFATAL, chainsize, fat)
  | fuel + 1, fat, current_cl, next_cl, chainsize =>
    if fat_is_cl_valid fat next_cl then
      if fat_is_cl_used fat next_cl then
        truncate_at ask rdonly fat current_cl chainsize
      else
        checkchainLoop ask rdonly fuel (fat_set_cl_used fat next_cl) next_cl
          (fat_get_cl_next (fat_set_cl_used fat next_cl) next_cl) (chainsize + 1)
    else if CLUST_EOFS ≤ next_cl then (FSOK, chainsize + 1, fat)
    else truncate_at ask rdonly fat current_cl chainsize

/-- `checkchain` (fat.c:794-859): clear the head bit and mark the head used,
then walk the chain.  The three `assert`s at entry (fat.c:806-808) are the
preconditions quantified in the theorems; `ask` answers the single possible
"Truncate" question.  Returns (status, `*chainsize`, descriptor). -/
def checkchain (ask rdonly : Bool) (fat : fat_descriptor) (head : Nat) :
    Nat × Nat × fat_descriptor :=
  checkchainLoop ask rdonly fat.boot.NumClusters
    (fat_set_cl_used (fat_clear_cl_head fat head) head) head
    (fat_get_cl_next (fat_set_cl_used (fat_clear_cl_head fat head) head) head) 0

/-- Specification-side count of the clusters of the chain starting at
`current`: 1 for `current` plus the tail behind its decoded successor, stopping
at the first non-valid successor (the EOF marker is not counted). -/
def chain_length (fat : fat_descriptor) : Nat → Nat → Nat
  | 0, _ => 0
  | fuel + 1, current =>
    if fat_is_cl_valid fat (fat_get_cl_next fat current) then
      1 + chain_length fat fuel (fat_get_cl_next fat current)
    else 1

/-- The `clearchain` loop body (fat.c:873-877): set the entry to `CLUST_FREE`
(the write status is discarded, as in the C), `boot->NumFree++`, and clear the
used bit when it is set (the used test reads the bitmap, which the two
preceding updates do not touch, so it is taken on the incoming state). -/
def clearchain_body (rdonly : Bool) (fat : fat_descriptor) (current_cl : Nat) :
    fat_descriptor :=
  if fat_is_cl_used fat current_cl then
    fat_clear_cl_used (bump_NumFree { fat with
      fatbuf := (fat_set_cl_next rdonly fat current_cl CLUST_FREE).2 }) current_cl
  else
    bump_NumFree { fat with
      fatbuf := (fat_set_cl_next rdonly fat current_cl CLUST_FREE).2 }

/-- The `clearchain` loop (fat.c:870-878) with explicit fuel.  The C loop's
increment clause `current_cl = next_cl, next_cl = fat_get_cl_next(fat,
current_cl)` reads `next_cl` before the loop ever assigns it: on the first
iteration `current_cl` becomes the *uninitialized* value of `next_cl`.  The
loop body therefore takes the cluster to visit and the value the increment
clause will load into `current_cl` as separate arguments. -/
def clearchainLoop (rdonly : Bool) :
    Nat → fat_descriptor → Nat → Nat → fat_descriptor
  | 0, fat, _, _ => fat
  | fuel + 1, fat, current_cl, next_cl =>
    if fat_is_cl_valid fat current_cl then
      clearchainLoop rdonly fuel
        (clearchain_body rdonly fat current_cl) next_cl
        (fat_get_cl_next (clearchain_body rdonly fat current_cl) next_cl)
    else fat

/-- `clearchain` (fat.c:864-879).  `uninit_next` is the indeterminate initial
value of the local `next_cl`, which the C code reads uninitialized in the first
execution of the loop's increment clause. -/
def clearchain (rdonly : Bool) (uninit_next fuel : Nat)
    (fat : fat_descriptor) (head : Nat) : fat_descriptor :=
  clearchainLoop rdonly fuel fat head uninit_next

/-- The `writefat` loop (fat.c:896-904) over FAT copy indices, abstracting the
I/O: `io_fail i` tells whether copy `i`'s `lseek`/`write` pair fails (`perr`
followed by `ret = FSFATAL`).  Returns the final status and the list of
attempted writes as (index, byte offset, byte count) triples in order. -/
def writefatLoop (io_fail : Nat → Bool)
    (ResSectors FATsecs BytesPerSec fatsz : Nat) :
    Nat → Nat → Nat → Nat × List (Nat × Nat × Nat)
  | 0, _, ret => (ret, [])
  | count + 1, i, ret =>
    ((writefatLoop io_fail ResSectors FATsecs BytesPerSec fatsz count (i + 1)
        (if io_fail i then FSFATAL else ret)).1,
     (i, (ResSectors + i * FATsecs) * BytesPerSec, fatsz) ::
       (writefatLoop io_fail ResSectors FATsecs BytesPerSec fatsz count (i + 1)
         (if io_fail i then FSFATAL else ret)).2)

/-- `writefat` (fat.c:884-907): write `fat->fatsize` bytes of the buffer to
every FAT copy, starting at index 1 instead of 0 exactly when the primary FAT
is memory-mapped. -/
def writefat (io_fail : Nat → Bool) (fat : fat_descriptor) :
    Nat × List (Nat × Nat × Nat) :=
  writefatLoop io_fail fat.boot.bpbResSectors fat.boot.FATsecs
    fat.boot.bpbBytesPerSec fat.fatsize
    (fat.boot.bpbFATs - (if fat.is_mmapped then 1 else 0))
    (if fat.is_mmapped then 1 else 0) FSOK

/-- The spec's scenario-1 boot block: FAT16, 16 clusters, media `0xf8`. -/
def exBoot16 : bootblock :=
  { ClustMask := CLUST16_MASK, NumClusters := 16, NumFree := 0, NumBad := 0,
    bpbMedia := 0xf8, bpbResSectors := 1, bpbBytesPerSec := 512,
    FATsecs := 1, bpbFATs := 2 }

/-- The spec's scenario-1 FAT16 buffer: entries 0/1 hold the clean signature,
cluster 2 chains to 3, cluster 3 is EOF, clusters 4..15 are free. -/
def exBuf16 : FatBuf := fun i =>
  match i with
  | 0 => 0xf8 | 1 => 0xff | 2 => 0xff | 3 => 0xff
  | 4 => 0x03 | 5 => 0x00 | 6 => 0xff | 7 => 0xff
  | _ => 0

/-- The scenario-1 descriptor as the directory traversal sees it: nothing used
yet, cluster 2 the only remaining chain head. -/
def exFat16 : fat_descriptor :=
  { boot := exBoot16, fatbuf := exBuf16,
    usedbitmap := fun _ => false, headbitmap := fun i => i == 2,
    is_mmapped := false, fatsize := 512 }

/-- A FAT16 first sector whose byte 2 is `0xf8`: `checkdirty`'s masked
validation accepts it, the Loader's two exact patterns both reject it. -/
def cexBuf : FatBuf := fun i =>
  match i with
  | 0 => 0xf8 | 1 => 0xff | 2 => 0xf8 | 3 => 0xff
  | _ => 0

/-! Helper lemmas. -/

theorem byteAt_lt (buf : FatBuf) (i : Nat) : byteAt buf i < 256 := by
  unfold byteAt; omega

theorem and_mask12 (x : Nat) : x &&& CLUST12_MASK = x % 4096 := by
  rw [show CLUST12_MASK = 2 ^ 12 - 1 by decide, Nat.and_pow_two_sub_one_eq_mod,
    show (2 : Nat) ^ 12 = 4096 by norm_num]

theorem and_mask16 (x : Nat) : x &&& CLUST16_MASK = x % 65536 := by
  rw [show CLUST16_MASK = 2 ^ 16 - 1 by decide, Nat.and_pow_two_sub_one_eq_mod,
    show (2 : Nat) ^ 16 = 65536 by norm_num]

theorem and_mask32 (x : Nat) : x &&& CLUST32_MASK = x % 268435456 := by
  rw [show CLUST32_MASK = 2 ^ 28 - 1 by decide, Nat.and_pow_two_sub_one_eq_mod,
    show (2 : Nat) ^ 28 = 268435456 by norm_num]

theorem lor_high {a k : Nat} (c : Nat) (h : a < 2 ^ k) :
    a ||| 2 ^ k * c = 2 ^ k * c + a := by
  rw [Nat.lor_comm]; exact (Nat.mul_add_lt_is_or h c).symm

theorem lor_ext12 {a : Nat} (h : a < 4096) :
    a ||| 0xfffff000 = 0xfffff000 + a := by
  rw [show (0xfffff000 : Nat) = 2 ^ 12 * 0xfffff by norm_num,
    lor_high _ (by simpa using h)]

theorem lor_ext16 {a : Nat} (h : a < 65536) :
    a ||| 0xffff0000 = 0xffff0000 + a := by
  rw [show (0xffff0000 : Nat) = 2 ^ 16 * 0xffff by norm_num,
    lor_high _ (by simpa using h)]

theorem lor_ext32 {a : Nat} (h : a < 268435456) :
    a ||| 0xf0000000 = 0xf0000000 + a := by
  rw [show (0xf0000000 : Nat) = 2 ^ 28 * 0xf by norm_num,
    lor_high _ (by simpa using h)]

theorem fat12_raw_lt (buf : FatBuf) (cl : Nat) : fat12_raw buf cl < 4096 := by
  unfold fat12_raw; rw [and_mask12]; omega

theorem fat16_raw_lt (buf : FatBuf) (cl : Nat) : fat16_raw buf cl < 65536 := by
  unfold fat16_raw; rw [and_mask16]; omega

theorem fat32_raw_lt (buf : FatBuf) (cl : Nat) :
    fat32_raw buf cl < 268435456 := by
  unfold fat32_raw; rw [and_mask32]; omega

theorem set_used_fatbuf (fat : fat_descriptor) (cl : Nat) :
    (fat_set_cl_used fat cl).fatbuf = fat.fatbuf := rfl

theorem set_used_boot (fat : fat_descriptor) (cl : Nat) :
    (fat_set_cl_used fat cl).boot = fat.boot := rfl

theorem clear_used_fatbuf (fat : fat_descriptor) (cl : Nat) :
    (fat_clear_cl_used fat cl).fatbuf = fat.fatbuf := rfl

theorem clear_used_boot (fat : fat_descriptor) (cl : Nat) :
    (fat_clear_cl_used fat cl).boot = fat.boot := rfl

theorem clear_head_fatbuf (fat : fat_descriptor) (cl : Nat) :
    (fat_clear_cl_head fat cl).fatbuf = fat.fatbuf := rfl

theorem clear_head_boot (fat : fat_descriptor) (cl : Nat) :
    (fat_clear_cl_head fat cl).boot = fat.boot := rfl

theorem fat_get_cl_next_congr {fat fat' : fat_descriptor}
    (hb : fat'.fatbuf = fat.fatbuf)
    (hm : fat'.boot.ClustMask = fat.boot.ClustMask)
    (hn : fat'.boot.NumClusters = fat.boot.NumClusters) (cl : Nat) :
    fat_get_cl_next fat' cl = fat_get_cl_next fat cl := by
  unfold fat_get_cl_next; rw [hb, hm, hn]

theorem fat_is_cl_valid_congr {fat fat' : fat_descriptor}
    (hn : fat'.boot.NumClusters = fat.boot.NumClusters) (cl : Nat) :
    fat_is_cl_valid fat' cl = fat_is_cl_valid fat cl := by
  unfold fat_is_cl_valid; rw [hn]

/-- C6: with the global `rdonly` flag set, `fat_set_cl_next` returns `FSFATAL`
and the in-memory FAT buffer is untouched, for every cluster and value: the
function short-circuits before the bounds check and the width dispatch. -/
theorem rdonly_set_refuses (fat : fat_descriptor) (cl nextcl : Nat) :
    fat_set_cl_next true fat cl nextcl = (FSFATAL, fat.fatbuf) := rfl

/-- C7: for `cl < CLUST_FIRST` or `cl ≥ NumClusters`, the generic read
accessor returns the sentinel `CLUST_DEAD` and the generic write accessor
returns `FSFATAL` leaving the buffer unchanged, whatever `rdonly` is. -/
theorem invalid_cl_accessors (fat : fat_descriptor) (cl nextcl : Nat)
    (rdonly : Bool) (h : cl < CLUST_FIRST ∨ fat.boot.NumClusters ≤ cl) :
    fat_get_cl_next fat cl = CLUST_DEAD ∧
    (fat_set_cl_next rdonly fat cl nextcl).1 = FSFATAL ∧
    (fat_set_cl_next rdonly fat cl nextcl).2 = fat.fatbuf := by
  unfold fat_get_cl_next fat_set_cl_next
  cases rdonly <;> simp [h]

/-- Witness for C7 at the scenario-1 volume and the out-of-range cluster 0. -/
theorem invalid_cl_accessors_witness :
    fat_get_cl_next exFat16 0 = CLUST_DEAD ∧
    (fat_set_cl_next false exFat16 0 0).1 = FSFATAL ∧
    (fat_set_cl_next false exFat16 0 0).2 = exFat16.fatbuf :=
  invalid_cl_accessors exFat16 0 0 false (Or.inl (by decide))

/-- C2 (bug evidence): on the scenario volume with chain 2→3→EOF, `clearchain`
from head 2 frees only cluster 2 and bumps `NumFree` once when the
uninitialized `next_cl` happens to hold 0 (cluster 3 keeps its EOF entry), yet
frees both clusters when that indeterminate value happens to be 3: the walk
after the head follows the uninitialized local, not the head's FAT entry. -/
theorem clearchain_uninit_dependence :
    (clearchain false 0 40 exFat16 2).boot.NumFree = 1 ∧
    fat_get_cl_next (clearchain false 0 40 exFat16 2) 3 = CLUST_EOF ∧
    (clearchain false 3 40 exFat16 2).boot.NumFree = 2 ∧
    fat_get_cl_next (clearchain false 3 40 exFat16 2) 3 = CLUST_FREE := by
  decide

/-- C8 (counterexample): a FAT16 first sector with byte 2 = `0xf8` fails both
of the Loader's accepted signature patterns, yet `checkdirty` validates it and
returns 1 — so `checkdirty` does not apply the same two-pattern validation as
the Loader, and a buffer failing that validation need not yield 0. -/
theorem checkdirty_not_loader_validation :
    checkdirty exBoot16 cexBuf = 1 ∧
    loader_sig_clean exBoot16.ClustMask exBoot16.bpbMedia cexBuf = false ∧
    loader_sig_dirty exBoot16.ClustMask exBoot16.bpbMedia cexBuf = false := by
  decide

/-- C1 (counterexample): on the spec's own scenario (FAT16 chain 2→3→EOF),
`checkchain` on head 2 returns OK with `chainsize = 2`, not 3: the final
increment at the terminator accounts for the head, it does not add a separate
terminator position. -/
theorem checkchain_example_chainsize_two :
    (checkchain false false exFat16 2).1 = FSOK ∧
    (checkchain false false exFat16 2).2.1 = 2 ∧
    (checkchain false false exFat16 2).2.1 ≠ 3 := by
  decide

theorem chain_length_congr {fat fat' : fat_descriptor}
    (hb : fat'.fatbuf = fat.fatbuf)
    (hm : fat'.boot.ClustMask = fat.boot.ClustMask)
    (hn : fat'.boot.NumClusters = fat.boot.NumClusters) (fuel : Nat) :
    ∀ current, chain_length fat' fuel current = chain_length fat fuel current := by
  induction fuel with
  | zero => intro c; rfl
  | succ n ih =>
    intro c
    simp only [chain_length]
    rw [fat_get_cl_next_congr hb hm hn c, fat_is_cl_valid_congr hn, ih]

theorem truncate_at_not_ok (ask rdonly : Bool) (fat : fat_descriptor)
    (c s : Nat) : (truncate_at ask rdonly fat c s).1 ≠ FSOK := by
  unfold truncate_at
  cases ask <;> simp [FSFATMOD, FSERROR, FSOK]

theorem checkchainLoop_ok_size (ask rdonly : Bool) :
    ∀ (fuel : Nat) (fat : fat_descriptor) (current chainsize : Nat),
      (checkchainLoop ask rdonly fuel fat current
        (fat_get_cl_next fat current) chainsize).1 = FSOK →
      (checkchainLoop ask rdonly fuel fat current
        (fat_get_cl_next fat current) chainsize).2.1 =
        chainsize + chain_length fat fuel current := by
  intro fuel
  induction fuel with
  | zero =>
    intro fat current chainsize h
    simp [checkchainLoop, FSFATAL, FSOK] at h
  | succ n ih =>
    intro fat current chainsize h
    simp only [checkchainLoop] at h ⊢
    by_cases hv : fat_is_cl_valid fat (fat_get_cl_next fat current) = true
    · simp only [hv, if_true] at h ⊢
      by_cases hu : fat_is_cl_used fat (fat_get_cl_next fat current) = true
      · simp only [hu, if_true] at h
        exact absurd h (truncate_at_not_ok ask rdonly fat current chainsize)
      · simp only [Bool.not_eq_true] at hu
        simp only [hu, Bool.false_eq_true, if_false] at h ⊢
        rw [ih _ _ _ h]
        simp only [chain_length, hv, if_true]
        rw [@chain_length_congr fat
          (fat_set_cl_used fat (fat_get_cl_next fat current)) rfl rfl rfl n]
        omega
    · simp only [Bool.not_eq_true] at hv
      simp only [hv, Bool.false_eq_true, if_false] at h ⊢
      by_cases he : CLUST_EOFS ≤ fat_get_cl_next fat current
      · simp only [he, if_true] at h ⊢
        simp only [chain_length, hv, Bool.false_eq_true, if_false]
      · simp only [he, if_false] at h
        exact absurd h (truncate_at_not_ok ask rdonly fat current chainsize)

/-- C1 (amended): when `checkchain` on a valid, unvisited head returns OK, the
final `chainsize` is the number of clusters of the chain counting the head and
every linked cluster up to (not additionally counting) the EOF terminator
position, as computed by `chain_length`. -/
theorem checkchain_ok_chainsize (ask rdonly : Bool) (fat : fat_descriptor)
    (head : Nat)
    (hvalid : fat_is_cl_valid fat head = true)
    (hhead : fat_is_cl_head fat head = true)
    (hused : fat_is_cl_used fat head = false)
    (hok : (checkchain ask rdonly fat head).1 = FSOK) :
    (checkchain ask rdonly fat head).2.1 =
      chain_length fat fat.boot.NumClusters head := by
  unfold checkchain at hok ⊢
  have h := checkchainLoop_ok_size ask rdonly fat.boot.NumClusters
    (fat_set_cl_used (fat_clear_cl_head fat head) head) head 0 hok
  rw [h, @chain_length_congr fat (fat_set_cl_used (fat_clear_cl_head fat head)
    head) rfl rfl rfl fat.boot.NumClusters head, Nat.zero_add]

/-- Witness for C1's amended theorem at the scenario-1 volume. -/
theorem checkchain_ok_chainsize_witness :
    (checkchain false false exFat16 2).2.1 =
      chain_length exFat16 exFat16.boot.NumClusters 2 :=
  checkchain_ok_chainsize false false exFat16 2 (by decide) (by decide)
    (by decide) (by decide)

theorem fat_set_cl_next_congr {fat fat' : fat_descriptor} (rdonly : Bool)
    (hb : fat'.fatbuf = fat.fatbuf)
    (hm : fat'.boot.ClustMask = fat.boot.ClustMask)
    (hn : fat'.boot.NumClusters = fat.boot.NumClusters) (cl nextcl : Nat) :
    fat_set_cl_next rdonly fat' cl nextcl = fat_set_cl_next rdonly fat cl nextcl := by
  unfold fat_set_cl_next; rw [hb, hm, hn]

theorem checkchainLoop_fatbuf (ask rdonly : Bool) :
    ∀ (fuel : Nat) (fat : fat_descriptor) (current next chainsize : Nat),
      (((checkchainLoop ask rdonly fuel fat current next chainsize).1 = FSOK ∨
        (checkchainLoop ask rdonly fuel fat current next chainsize).1 = FSERROR) →
        (checkchainLoop ask rdonly fuel fat current next chainsize).2.2.fatbuf =
          fat.fatbuf) ∧
      ((checkchainLoop ask rdonly fuel fat current next chainsize).2.2.fatbuf =
          fat.fatbuf ∨
        ((checkchainLoop ask rdonly fuel fat current next chainsize).1 =
            FSFATMOD ∧
         ∃ c, (checkchainLoop ask rdonly fuel fat current next chainsize).2.2.fatbuf =
           (fat_set_cl_next rdonly fat c CLUST_EOF).2)) := by
  intro fuel
  induction fuel with
  | zero =>
    intro fat current next chainsize
    exact ⟨fun _ => rfl, Or.inl rfl⟩
  | succ n ih =>
    intro fat current next chainsize
    simp only [checkchainLoop]
    by_cases hv : fat_is_cl_valid fat next = true
    · simp only [hv, if_true]
      by_cases hu : fat_is_cl_used fat next = true
      · simp only [hu, if_true]
        unfold truncate_at
        cases ask with
        | false =>
          exact ⟨fun _ => rfl, Or.inl rfl⟩
        | true =>
          refine ⟨fun h => ?_, Or.inr ⟨rfl, current, rfl⟩⟩
          simp [FSFATMOD, FSOK, FSERROR] at h
      · simp only [Bool.not_eq_true] at hu
        simp only [hu, Bool.false_eq_true, if_false]
        have h := ih (fat_set_cl_used fat next) next
          (fat_get_cl_next (fat_set_cl_used fat next) next) (chainsize + 1)
        rw [set_used_fatbuf] at h
        rcases h with ⟨h1, h2⟩
        refine ⟨h1, ?_⟩
        rcases h2 with h2 | ⟨hs, c, hc⟩
        · exact Or.inl h2
        · refine Or.inr ⟨hs, c, ?_⟩
          rw [hc, fat_set_cl_next_congr rdonly (set_used_fatbuf fat next) rfl rfl]
    · simp only [Bool.not_eq_true] at hv
      simp only [hv, Bool.false_eq_true, if_false]
      by_cases he : CLUST_EOFS ≤ next
      · simp [he]
      · simp only [he, if_false]
        unfold truncate_at
        cases ask with
        | false =>
          exact ⟨fun _ => rfl, Or.inl rfl⟩
        | true =>
          refine ⟨fun h => ?_, Or.inr ⟨rfl, current, rfl⟩⟩
          simp [FSFATMOD, FSOK, FSERROR] at h

/-- C10: when `checkchain` returns OK, or returns ERROR because the oracle
declined a truncation, the FAT buffer is unchanged; and on every outcome the
buffer is either unchanged or is the original buffer with a single
`fat_set_cl_next .. CLUST_EOF` write performed by `truncate_at` after a "yes",
in which case the status is `FSFATMOD`. -/
theorem checkchain_buffer_writes (ask rdonly : Bool) (fat : fat_descriptor)
    (head : Nat) :
    (((checkchain ask rdonly fat head).1 = FSOK ∨
      (checkchain ask rdonly fat head).1 = FSERROR) →
      (checkchain ask rdonly fat head).2.2.fatbuf = fat.fatbuf) ∧
    ((checkchain ask rdonly fat head).2.2.fatbuf = fat.fatbuf ∨
      ((checkchain ask rdonly fat head).1 = FSFATMOD ∧
       ∃ c, (checkchain ask rdonly fat head).2.2.fatbuf =
         (fat_set_cl_next rdonly fat c CLUST_EOF).2)) := by
  unfold checkchain
  have h := checkchainLoop_fatbuf ask rdonly fat.boot.NumClusters
    (fat_set_cl_used (fat_clear_cl_head fat head) head) head
    (fat_get_cl_next (fat_set_cl_used (fat_clear_cl_head fat head) head) head) 0
  rw [set_used_fatbuf, clear_head_fatbuf] at h
  rcases h with ⟨h1, h2⟩
  refine ⟨h1, ?_⟩
  rcases h2 with h2 | ⟨hs, c, hc⟩
  · exact Or.inl h2
  · refine Or.inr ⟨hs, c, ?_⟩
    rw [hc, @fat_set_cl_next_congr fat
      (fat_set_cl_used (fat_clear_cl_head fat head) head) rdonly rfl rfl rfl c
      CLUST_EOF]

/-- Witness for C10 at the scenario-1 volume: the OK walk leaves the buffer
untouched. -/
theorem checkchain_buffer_writes_witness :
    (checkchain false false exFat16 2).2.2.fatbuf = exFat16.fatbuf :=
  (checkchain_buffer_writes false false exFat16 2).1 (Or.inl (by decide))

theorem if_clear_head_fatbuf (b : Bool) (fat : fat_descriptor) (cl : Nat) :
    (if b then fat_clear_cl_head fat cl else fat).fatbuf = fat.fatbuf := by
  cases b <;> rfl

theorem if_clear_head_boot (b : Bool) (fat : fat_descriptor) (cl : Nat) :
    (if b then fat_clear_cl_head fat cl else fat).boot = fat.boot := by
  cases b <;> rfl

theorem readfat_scan_step_false (rdonly : Bool) (fat : fat_descriptor)
    (cl : Nat) :
    (readfat_scan_step false rdonly fat cl).2.fatbuf = fat.fatbuf ∧
    (readfat_scan_step false rdonly fat cl).2.boot.ClustMask =
      fat.boot.ClustMask ∧
    (readfat_scan_step false rdonly fat cl).2.boot.NumClusters =
      fat.boot.NumClusters ∧
    (readfat_scan_step false rdonly fat cl).2.boot.NumFree =
      fat.boot.NumFree +
        (if fat_get_cl_next fat cl = CLUST_FREE then 1 else 0) ∧
    (readfat_scan_step false rdonly fat cl).2.boot.NumBad =
      fat.boot.NumBad +
        (if fat_get_cl_next fat cl = CLUST_BAD then 1 else 0) := by
  unfold readfat_scan_step
  simp only [Bool.false_eq_true, if_false]
  split_ifs <;>
    simp_all [bump_NumFree, bump_NumBad, fat_clear_cl_head, CLUST_FREE,
      CLUST_BAD]

theorem readfat_scanLoop_counts (rdonly : Bool) :
    ∀ (count : Nat), ∀ (cl ret : Nat) (fat : fat_descriptor),
      (readfat_scanLoop (fun _ => false) rdonly count cl ret fat).2.boot.NumFree =
        fat.boot.NumFree + (List.range' cl count).countP
          (fun c => fat_get_cl_next fat c == CLUST_FREE) ∧
      (readfat_scanLoop (fun _ => false) rdonly count cl ret fat).2.boot.NumBad =
        fat.boot.NumBad + (List.range' cl count).countP
          (fun c => fat_get_cl_next fat c == CLUST_BAD) := by
  intro count
  induction count with
  | zero => intro cl ret fat; simp [readfat_scanLoop]
  | succ n ih =>
    intro cl ret fat
    simp only [readfat_scanLoop]
    obtain ⟨hb, hm, hn, hf, hbad⟩ := readfat_scan_step_false rdonly fat cl
    obtain ⟨ih1, ih2⟩ := ih (cl + 1)
      (ret ||| (readfat_scan_step false rdonly fat cl).1)
      (readfat_scan_step false rdonly fat cl).2
    have hcf : (List.range' (cl + 1) n).countP
        (fun c => fat_get_cl_next (readfat_scan_step false rdonly fat cl).2 c ==
          CLUST_FREE) =
        (List.range' (cl + 1) n).countP
          (fun c => fat_get_cl_next fat c == CLUST_FREE) :=
      List.countP_congr (fun x _ => by rw [fat_get_cl_next_congr hb hm hn x])
    have hcb : (List.range' (cl + 1) n).countP
        (fun c => fat_get_cl_next (readfat_scan_step false rdonly fat cl).2 c ==
          CLUST_BAD) =
        (List.range' (cl + 1) n).countP
          (fun c => fat_get_cl_next fat c == CLUST_BAD) :=
      List.countP_congr (fun x _ => by rw [fat_get_cl_next_congr hb hm hn x])
    rw [List.range'_succ]
    constructor
    · rw [ih1, hf, hcf, List.countP_cons]
      by_cases hc : fat_get_cl_next fat cl = CLUST_FREE <;> simp [hc] <;> omega
    · rw [ih2, hbad, hcb, List.countP_cons]
      by_cases hc : fat_get_cl_next fat cl = CLUST_BAD <;> simp [hc] <;> omega

/-- C3: after the Scanner's pass over `[CLUST_FIRST, NumClusters)` with every
"Truncate" question declined (no repairs), `NumFree` is exactly the number of
clusters in that range whose decoded successor is `CLUST_FREE`, and `NumBad`
exactly the number whose decoded successor is `CLUST_BAD`. -/
theorem readfat_scan_counts (rdonly : Bool) (fat : fat_descriptor) :
    (readfat_scan (fun _ => false) rdonly fat).2.boot.NumFree =
      (List.range' CLUST_FIRST (fat.boot.NumClusters - CLUST_FIRST)).countP
        (fun c => fat_get_cl_next fat c == CLUST_FREE) ∧
    (readfat_scan (fun _ => false) rdonly fat).2.boot.NumBad =
      (List.range' CLUST_FIRST (fat.boot.NumClusters - CLUST_FIRST)).countP
        (fun c => fat_get_cl_next fat c == CLUST_BAD) := by
  unfold readfat_scan
  obtain ⟨h1, h2⟩ := readfat_scanLoop_counts rdonly
    (fat.boot.NumClusters - CLUST_FIRST) CLUST_FIRST FSOK
    { fat with boot := { fat.boot with NumFree := 0, NumBad := 0 } }
  have hget : ∀ x, fat_get_cl_next
      { fat with boot := { fat.boot with NumFree := 0, NumBad := 0 } } x =
      fat_get_cl_next fat x :=
    fun x => @fat_get_cl_next_congr fat
      { fat with boot := { fat.boot with NumFree := 0, NumBad := 0 } }
      rfl rfl rfl x
  have hcf : (List.range' CLUST_FIRST
        (fat.boot.NumClusters - CLUST_FIRST)).countP
      (fun c => fat_get_cl_next
        { fat with boot := { fat.boot with NumFree := 0, NumBad := 0 } } c ==
        CLUST_FREE) =
      (List.range' CLUST_FIRST (fat.boot.NumClusters - CLUST_FIRST)).countP
        (fun c => fat_get_cl_next fat c == CLUST_FREE) :=
    List.countP_congr (fun x _ => by rw [hget x])
  have hcb : (List.range' CLUST_FIRST
        (fat.boot.NumClusters - CLUST_FIRST)).countP
      (fun c => fat_get_cl_next
        { fat with boot := { fat.boot with NumFree := 0, NumBad := 0 } } c ==
        CLUST_BAD) =
      (List.range' CLUST_FIRST (fat.boot.NumClusters - CLUST_FIRST)).countP
        (fun c => fat_get_cl_next fat c == CLUST_BAD) :=
    List.countP_congr (fun x _ => by rw [hget x])
  exact ⟨by rw [h1, hcf]; simp, by rw [h2, hcb]; simp⟩

theorem fat_get_fat12_next_eq (buf : FatBuf) (cl : Nat) :
    fat_get_fat12_next buf cl =
      if CLUST_BAD &&& CLUST12_MASK ≤ fat12_raw buf cl then
        0xfffff000 + fat12_raw buf cl
      else fat12_raw buf cl := by
  unfold fat_get_fat12_next
  split_ifs with h
  · exact lor_ext12 (fat12_raw_lt buf cl)
  · rfl

theorem fat_get_fat16_next_eq (buf : FatBuf) (cl : Nat) :
    fat_get_fat16_next buf cl =
      if CLUST_BAD &&& CLUST16_MASK ≤ fat16_raw buf cl then
        0xffff0000 + fat16_raw buf cl
      else fat16_raw buf cl := by
  unfold fat_get_fat16_next
  split_ifs with h
  · exact lor_ext16 (fat16_raw_lt buf cl)
  · rfl

theorem fat_get_fat32_next_eq (buf : FatBuf) (cl : Nat) :
    fat_get_fat32_next buf cl =
      if CLUST_BAD &&& CLUST32_MASK ≤ fat32_raw buf cl then
        0xf0000000 + fat32_raw buf cl
      else fat32_raw buf cl := by
  unfold fat_get_fat32_next
  split_ifs with h
  · exact lor_ext32 (fat32_raw_lt buf cl)
  · rfl

/-- C4: each width-specific decoder returns the little-endian word at the
width's offset masked to the width, ORing in the sign-extension bits `~mask`
exactly when the masked value reaches `CLUST_BAD & mask`; consequently the
BAD/EOFS/reserved-band sentinel comparisons on the returned value are decided
by the same masked-value criteria in all three widths. -/
theorem decode_width_uniform (buf : FatBuf) (cl : Nat) :
    (fat_get_fat12_next buf cl =
      if CLUST_BAD &&& CLUST12_MASK ≤ fat12_raw buf cl then
        fat12_raw buf cl ||| 0xfffff000
      else fat12_raw buf cl) ∧
    (fat_get_fat16_next buf cl =
      if CLUST_BAD &&& CLUST16_MASK ≤ fat16_raw buf cl then
        fat16_raw buf cl ||| 0xffff0000
      else fat16_raw buf cl) ∧
    (fat_get_fat32_next buf cl =
      if CLUST_BAD &&& CLUST32_MASK ≤ fat32_raw buf cl then
        fat32_raw buf cl ||| 0xf0000000
      else fat32_raw buf cl) ∧
    ((CLUST_EOFS ≤ fat_get_fat12_next buf cl ↔
        CLUST_EOFS &&& CLUST12_MASK ≤ fat12_raw buf cl) ∧
     (fat_get_fat12_next buf cl = CLUST_BAD ↔
        fat12_raw buf cl = CLUST_BAD &&& CLUST12_MASK) ∧
     (CLUST_RSRVD ≤ fat_get_fat12_next buf cl ↔
        CLUST_BAD &&& CLUST12_MASK ≤ fat12_raw buf cl)) ∧
    ((CLUST_EOFS ≤ fat_get_fat16_next buf cl ↔
        CLUST_EOFS &&& CLUST16_MASK ≤ fat16_raw buf cl) ∧
     (fat_get_fat16_next buf cl = CLUST_BAD ↔
        fat16_raw buf cl = CLUST_BAD &&& CLUST16_MASK) ∧
     (CLUST_RSRVD ≤ fat_get_fat16_next buf cl ↔
        CLUST_BAD &&& CLUST16_MASK ≤ fat16_raw buf cl)) ∧
    ((CLUST_EOFS ≤ fat_get_fat32_next buf cl ↔
        CLUST_EOFS &&& CLUST32_MASK ≤ fat32_raw buf cl) ∧
     (fat_get_fat32_next buf cl = CLUST_BAD ↔
        fat32_raw buf cl = CLUST_BAD &&& CLUST32_MASK) ∧
     (CLUST_RSRVD ≤ fat_get_fat32_next buf cl ↔
        CLUST_BAD &&& CLUST32_MASK ≤ fat32_raw buf cl)) := by
  have b12 := fat12_raw_lt buf cl
  have b16 := fat16_raw_lt buf cl
  have b32 := fat32_raw_lt buf cl
  have h12 := fat_get_fat12_next_eq buf cl
  have h16 := fat_get_fat16_next_eq buf cl
  have h32 := fat_get_fat32_next_eq buf cl
  have e12 : CLUST_BAD &&& CLUST12_MASK = 0xff7 := by decide
  have e16 : CLUST_BAD &&& CLUST16_MASK = 0xfff7 := by decide
  have e32 : CLUST_BAD &&& CLUST32_MASK = 0xffffff7 := by decide
  have f12 : CLUST_EOFS &&& CLUST12_MASK = 0xff8 := by decide
  have f16 : CLUST_EOFS &&& CLUST16_MASK = 0xfff8 := by decide
  have f32 : CLUST_EOFS &&& CLUST32_MASK = 0xffffff8 := by decide
  refine ⟨rfl, rfl, rfl, ⟨?_, ?_, ?_⟩, ⟨?_, ?_, ?_⟩, ⟨?_, ?_, ?_⟩⟩
  · rw [h12, e12, f12]; simp only [CLUST_EOFS]; split_ifs with h <;> omega
  · rw [h12, e12]; simp only [CLUST_BAD]; split_ifs with h <;> omega
  · rw [h12, e12]; simp only [CLUST_RSRVD]; split_ifs with h <;> omega
  · rw [h16, e16, f16]; simp only [CLUST_EOFS]; split_ifs with h <;> omega
  · rw [h16, e16]; simp only [CLUST_BAD]; split_ifs with h <;> omega
  · rw [h16, e16]; simp only [CLUST_RSRVD]; split_ifs with h <;> omega
  · rw [h32, e32, f32]; simp only [CLUST_EOFS]; split_ifs with h <;> omega
  · rw [h32, e32]; simp only [CLUST_BAD]; split_ifs with h <;> omega
  · rw [h32, e32]; simp only [CLUST_RSRVD]; split_ifs with h <;> omega

set_option maxRecDepth 4096 in
theorem and_f0 : ∀ x < 256, x &&& 0xf0 = x / 16 * 16 := by decide

set_option maxRecDepth 4096 in
theorem and_0f : ∀ x < 256, x &&& 0x0f = x % 16 := by decide

theorem byteAt_le16enc_fst (buf : FatBuf) (p v : Nat) :
    byteAt (le16enc buf p v) p = v % 256 := by
  unfold le16enc byteAt
  rw [Function.update_noteq (by omega : p ≠ p + 1), Function.update_same]
  omega

theorem byteAt_le16enc_snd (buf : FatBuf) (p v : Nat) :
    byteAt (le16enc buf p v) (p + 1) = v / 256 % 256 := by
  unfold le16enc byteAt
  rw [Function.update_same]
  omega

theorem le16dec_le16enc (buf : FatBuf) (p v : Nat) :
    le16dec (le16enc buf p v) p = v % 65536 := by
  unfold le16dec
  rw [byteAt_le16enc_fst, byteAt_le16enc_snd]
  omega

/-- C5: the FAT12 round-trip.  For `v ≤ 0xFFF`, decoding right after encoding
yields the sign-extension of `v` (extension exactly when `v` reaches
`CLUST_BAD & CLUST12_MASK`), and the 4 bits of the shared 16-bit slot that
belong to the neighboring cluster — the high nibble of the second byte for
even `cl`, the low nibble of the first byte for odd `cl` — are unchanged. -/
theorem fat12_roundtrip (buf : FatBuf) (cl v : Nat) (hv : v ≤ 0xfff) :
    (fat_get_fat12_next (fat_set_fat12_next buf cl v) cl =
      if CLUST_BAD &&& CLUST12_MASK ≤ v then v ||| 0xfffff000 else v) ∧
    (cl % 2 = 0 →
      byteAt (fat_set_fat12_next buf cl v) (fat_get_fat12_ptr cl + 1) / 16 =
        byteAt buf (fat_get_fat12_ptr cl + 1) / 16) ∧
    (cl % 2 = 1 →
      byteAt (fat_set_fat12_next buf cl v) (fat_get_fat12_ptr cl) % 16 =
        byteAt buf (fat_get_fat12_ptr cl) % 16) := by
  have e12 : CLUST_BAD &&& CLUST12_MASK = 0xff7 := by decide
  have hvext : v ||| 0xfffff000 = 0xfffff000 + v := lor_ext12 (by omega)
  have hv4 : v &&& CLUST12_MASK = v := by rw [and_mask12]; omega
  have hb0 := byteAt_lt buf (fat_get_fat12_ptr cl)
  have hb1 := byteAt_lt buf (fat_get_fat12_ptr cl + 1)
  by_cases hpar : cl % 2 = 0
  · have hpar' : cl &&& 1 = 0 := by rw [Nat.and_one_is_mod]; omega
    have hpar'' : ¬(cl &&& 1 = 1) := by rw [Nat.and_one_is_mod]; omega
    have hq : byteAt buf (fat_get_fat12_ptr cl + 1) / 16 < 16 := by omega
    have hlt : 4096 * (byteAt buf (fat_get_fat12_ptr cl + 1) / 16) + v <
        65536 := by omega
    have henc : fat_set_fat12_next buf cl v =
        le16enc buf (fat_get_fat12_ptr cl)
          (4096 * (byteAt buf (fat_get_fat12_ptr cl + 1) / 16) + v) := by
      unfold fat_set_fat12_next
      rw [if_pos hpar', hv4, and_f0 _ hb1, Nat.shiftLeft_eq,
        show (2 : Nat) ^ 8 = 256 by norm_num,
        show byteAt buf (fat_get_fat12_ptr cl + 1) / 16 * 16 * 256 =
          2 ^ 12 * (byteAt buf (fat_get_fat12_ptr cl + 1) / 16) by
            rw [show (2 : Nat) ^ 12 = 4096 by norm_num]; ring,
        lor_high _ (show v < 2 ^ 12 by
          simpa using (show v < 4096 by omega)),
        show (2 : Nat) ^ 12 = 4096 by norm_num,
        Nat.mod_eq_of_lt hlt]
    refine ⟨?_, fun _ => ?_, fun h => by omega⟩
    · rw [henc]
      unfold fat_get_fat12_next fat12_raw
      rw [if_neg hpar'', le16dec_le16enc, Nat.mod_eq_of_lt hlt, e12,
        and_mask12 (4096 * (byteAt buf (fat_get_fat12_ptr cl + 1) / 16) + v),
        show (4096 * (byteAt buf (fat_get_fat12_ptr cl + 1) / 16) + v) %
          4096 = v by omega]
    · rw [henc, byteAt_le16enc_snd]
      omega
  · have hpar1 : cl % 2 = 1 := by omega
    have hpar' : ¬(cl &&& 1 = 0) := by rw [Nat.and_one_is_mod]; omega
    have hpar'' : cl &&& 1 = 1 := by rw [Nat.and_one_is_mod]; omega
    have hlt : 16 * v + byteAt buf (fat_get_fat12_ptr cl) % 16 < 65536 := by
      omega
    have henc : fat_set_fat12_next buf cl v =
        le16enc buf (fat_get_fat12_ptr cl)
          (16 * v + byteAt buf (fat_get_fat12_ptr cl) % 16) := by
      unfold fat_set_fat12_next
      rw [if_neg hpar', hv4, and_0f _ hb0, Nat.shiftLeft_eq,
        show (2 : Nat) ^ 4 = 16 by norm_num, Nat.lor_comm,
        show v * 16 = 2 ^ 4 * v by
          rw [show (2 : Nat) ^ 4 = 16 by norm_num]; ring,
        lor_high v (show byteAt buf (fat_get_fat12_ptr cl) % 16 < 2 ^ 4 by
          simpa using (show byteAt buf (fat_get_fat12_ptr cl) % 16 < 16 by
            omega)),
        show (2 : Nat) ^ 4 = 16 by norm_num, Nat.mod_eq_of_lt hlt]
    refine ⟨?_, fun h => by omega, fun _ => ?_⟩
    · rw [henc]
      unfold fat_get_fat12_next fat12_raw
      rw [if_pos hpar'', le16dec_le16enc, Nat.mod_eq_of_lt hlt,
        Nat.shiftRight_eq_div_pow, show (2 : Nat) ^ 4 = 16 by norm_num, e12,
        and_mask12 ((16 * v + byteAt buf (fat_get_fat12_ptr cl) % 16) / 16),
        show (16 * v + byteAt buf (fat_get_fat12_ptr cl) % 16) / 16 % 4096 =
          v by omega]
    · rw [henc, byteAt_le16enc_fst]
      omega

/-- Witness for C5 at the even cluster 2, value `0x123`, on a constant
buffer. -/
theorem fat12_roundtrip_witness :
    (fat_get_fat12_next (fat_set_fat12_next (fun _ => 0xab) 2 0x123) 2 =
      if CLUST_BAD &&& CLUST12_MASK ≤ 0x123 then 0x123 ||| 0xfffff000
      else 0x123) ∧
    (2 % 2 = 0 →
      byteAt (fat_set_fat12_next (fun _ => 0xab) 2 0x123)
          (fat_get_fat12_ptr 2 + 1) / 16 =
        byteAt (fun _ => 0xab) (fat_get_fat12_ptr 2 + 1) / 16) ∧
    (2 % 2 = 1 →
      byteAt (fat_set_fat12_next (fun _ => 0xab) 2 0x123)
          (fat_get_fat12_ptr 2) % 16 =
        byteAt (fun _ => 0xab) (fat_get_fat12_ptr 2) % 16) :=
  fat12_roundtrip (fun _ => 0xab) 2 0x123 (by decide)

theorem and15_imp_and3 {x : Nat} (h : x &&& 15 = 15) : x &&& 3 = 3 := by
  have h2 : x &&& 15 &&& 3 = 15 &&& 3 := by rw [h]
  rwa [Nat.and_assoc, show (15 &&& 3 : Nat) = 3 by decide] at h2

/-- C8 (amended): `checkdirty` validates the first FAT sector with a masked
relaxation of the Loader's two-pattern signature check — every buffer the
Loader accepts as clean or as OSR2-dirty passes it — and returns 1 exactly when
its validation passes and the clean+no-error flag bits are set (FAT16:
`(byte3 & 0xC0) == 0xC0`; FAT32: `(byte7 & 0x0C) == 0x0C`); any buffer failing
its validation yields 0. -/
theorem checkdirty_masked_validation (boot : bootblock) (buf : FatBuf) :
    ((boot.ClustMask = CLUST16_MASK ∨ boot.ClustMask = CLUST32_MASK) →
      (checkdirty boot buf = 1 ↔
        (checkdirty_sig boot.ClustMask boot.bpbMedia buf = true ∧
          (if boot.ClustMask = CLUST16_MASK then byteAt buf 3 &&& 0xc0 = 0xc0
           else byteAt buf 7 &&& 0x0c = 0x0c)))) ∧
    ((boot.ClustMask = CLUST16_MASK ∨ boot.ClustMask = CLUST32_MASK) →
      (loader_sig_clean boot.ClustMask boot.bpbMedia buf = true ∨
       loader_sig_dirty boot.ClustMask boot.bpbMedia buf = true) →
      checkdirty_sig boot.ClustMask boot.bpbMedia buf = true) := by
  obtain ⟨mask, ncl, nf, nb, media, rs, bps, fs, nfats⟩ := boot
  constructor
  · rintro (h | h) <;> subst h <;>
      · simp only [checkdirty, checkdirty_sig, CLUST16_MASK, CLUST32_MASK]
        norm_num
        split_ifs <;> simp_all <;> omega
  · rintro (h | h) (hl | hl) <;> subst h <;>
      simp_all [checkdirty_sig, loader_sig_clean, loader_sig_dirty,
        CLUST16_MASK, CLUST32_MASK] <;>
      first
        | decide
        | exact ⟨by decide, and15_imp_and3 (by tauto)⟩

/-- Witness for C8's amended theorem: the scenario-1 clean FAT16 sector passes
`checkdirty`'s masked validation because the Loader accepts it as clean. -/
theorem checkdirty_masked_validation_witness :
    checkdirty_sig exBoot16.ClustMask exBoot16.bpbMedia exBuf16 = true :=
  (checkdirty_masked_validation exBoot16 exBuf16).2 (Or.inl (by decide))
    (Or.inl (by decide))

theorem writefatLoop_spec (io_fail : Nat → Bool) (R F B z : Nat) :
    ∀ (count i ret : Nat),
      writefatLoop io_fail R F B z count i ret =
        ((if (List.range' i count).any io_fail then FSFATAL else ret),
         (List.range' i count).map (fun j => (j, (R + j * F) * B, z))) := by
  intro count
  induction count with
  | zero => intro i ret; simp [writefatLoop]
  | succ n ih =>
    intro i ret
    rw [List.range'_succ]
    simp only [writefatLoop, ih, List.any_cons, List.map_cons]
    by_cases hf : io_fail i = true
    · by_cases ha : (List.range' (i + 1) n).any io_fail = true
      · simp [hf, ha]
      · simp only [Bool.not_eq_true] at ha
        simp [hf, ha]
    · simp only [Bool.not_eq_true] at hf
      by_cases ha : (List.range' (i + 1) n).any io_fail = true
      · simp [ha, hf]
      · simp only [Bool.not_eq_true] at ha
        simp [ha, hf]

/-- C9: the Writer iterates over the FAT copy indices, starting at 1 instead
of 0 exactly when the primary FAT is memory-mapped; each copy is attempted at
offset `reserved_sectors*bytes_per_sector + i*fat_sectors*bytes_per_sector`
with `fatsize` bytes, every copy is attempted regardless of earlier failures,
and the returned status is `FSFATAL` iff some attempted copy's `lseek`/`write`
failed (otherwise `FSOK`). -/
theorem writefat_spec (io_fail : Nat → Bool) (fat : fat_descriptor) :
    writefat io_fail fat =
      ((if (List.range' (if fat.is_mmapped then 1 else 0)
            (fat.boot.bpbFATs - (if fat.is_mmapped then 1 else 0))).any io_fail
        then FSFATAL else FSOK),
       (List.range' (if fat.is_mmapped then 1 else 0)
          (fat.boot.bpbFATs - (if fat.is_mmapped then 1 else 0))).map
         (fun i => (i, fat.boot.bpbResSectors * fat.boot.bpbBytesPerSec +
           i * fat.boot.FATsecs * fat.boot.bpbBytesPerSec, fat.fatsize))) := by
  unfold writefat
  rw [writefatLoop_spec]
  congr 1
  exact List.map_congr_left (fun a _ => by
    rw [show (fat.boot.bpbResSectors + a * fat.boot.FATsecs) *
        fat.boot.bpbBytesPerSec =
        fat.boot.bpbResSectors * fat.boot.bpbBytesPerSec +
          a * fat.boot.FATsecs * fat.boot.bpbBytesPerSec by ring])
